import Mathlib

/-!
Verification of the per-user login state machine of this repository
(src/account.py and src/bot.py).

The two Python files are embedded shallowly:

* the mutable dictionaries `login_states` (account.py), `user_state` and
  `temp_clients` (bot.py) become maps `UserId → Option _` threaded
  explicitly through each operation;
* the MongoDB collection `accounts_col` becomes a list of documents;
  `insert_one` appends, `find_one` is `List.find?`;
* the outcomes of the external Pyrogram client calls (`send_code`,
  `sign_in`, `check_password`, `export_session_string`) are inputs of the
  embedding, supplied in an environment record, since the adapter methods
  of `PyrogramClientManager` catch every exception and convert it to a
  returned tuple;
* the side effects a handler performs on the network client and on the
  durable store are recorded in order in a trace of `Eff` values, so that
  "disconnected exactly once" and "exactly one record written" are
  countable facts about a run.

Python dictionary access faithfully raises `KeyError` where the source
does: those paths are translated branch by branch, including the
catch-all `except` clauses that pop the entry and return a failure tuple.
-/

abbrev UserId := Nat
abbrev ClientId := Nat

/-- A document of the `accounts_col` Mongo collection.  The two writers of
the repository use different schemas (account.py writes `created_by`,
`session_string`, `has_2fa`, `two_step_password`; bot.py writes `user_id`,
`session`, `two_step`), so every field is optional and a writer sets only
the fields its Python dict literal contains. -/
structure Doc where
  user_id : Option UserId := none
  created_by : Option UserId := none
  phone : Option String := none
  country : Option String := none
  session_string : Option String := none
  session : Option String := none
  has_2fa : Option Bool := none
  two_step : Option Bool := none
  two_step_password : Option String := none
  status : Option String := none
  used : Option Bool := none
  created_at : Option Nat := none
  added_at : Option Nat := none
  deriving DecidableEq

/-- Observable side effects of one handler invocation, in execution order.
`sendCode c` records a `send_code` request issued on client `c`,
`disconnect c` a `safe_disconnect`/`disconnect` of client `c`, and
`insert d` an `accounts_col.insert_one` of document `d`. -/
inductive Eff where
  | sendCode (c : ClientId)
  | disconnect (c : ClientId)
  | insert (d : Doc)
  deriving DecidableEq

/-- Number of disconnect effects for client `c` in a trace. -/
def disconnects (tr : List Eff) (c : ClientId) : Nat :=
  (tr.filter (fun e => match e with
    | Eff.disconnect x => decide (x = c)
    | _ => false)).length

/-- The documents inserted during a run, in order. -/
def inserts (tr : List Eff) : List Doc :=
  tr.filterMap (fun e => match e with
    | Eff.insert d => some d
    | _ => none)

/-- The fields that `pyrogram_login_flow_async` writes into a user's
`login_states` entry with one `dict.update` call on success: they are
always set together, so they are bundled. -/
structure FlowData where
  client : ClientId
  phone : String
  phone_code_hash : String
  country : String
  deriving DecidableEq

/-- One `login_states[user_id]` dictionary.  `step` is always present
(the entry is created with a step by the caller); `data` is `none` until
`pyrogram_login_flow_async` succeeds and populates the remaining keys. -/
structure Attempt where
  step : String
  data : Option FlowData := none
  deriving DecidableEq

/-- Pointwise update of the `login_states` map (dict assignment / pop). -/
def setEntry (m : UserId → Option Attempt) (k : UserId) (v : Option Attempt) :
    UserId → Option Attempt :=
  fun u => if u = k then v else m u

/-- The mutable state shared by the account.py flows: the `login_states`
dictionary and the `accounts_col` collection. -/
structure World where
  login_states : UserId → Option Attempt
  accounts : List Doc

/-- Outcome of `PyrogramClientManager.send_code` (account.py lines
106-117): success with a `phone_code_hash`, a `FloodWait` converted to an
error message carrying the wait, or any other exception as a message. -/
inductive SendCodeRes where
  | ok (phone_code_hash : String)
  | floodWait (seconds : Nat)
  | err (msg : String)
  deriving DecidableEq

/-- The flood-wait message built in `send_code`. -/
def floodMsg (n : Nat) : String :=
  "FloodWait: Please wait " ++ toString n ++ " seconds"

/-- Python `error or default` on strings: the default replaces an empty
(falsy) message. -/
def errOr (e d : String) : String :=
  if e = "" then d else e

/-- Environment of one `pyrogram_login_flow_async` run: the identity of
the freshly created client and what `send_code` returns for it. -/
structure FlowEnv where
  newClient : ClientId
  sendCode : SendCodeRes

/-- Shallow embedding of `pyrogram_login_flow_async` (account.py lines
177-205).  Returns the updated world, the effect trace, and the
`(success, message)` pair the coroutine returns. -/
def pyrogram_login_flow (env : FlowEnv) (w : World) (user_id : UserId)
    (phone_number country : String) : World × List Eff × Bool × String :=
  match w.login_states user_id with
  | none => (w, [], false, "Session expired")
  | some _ =>
    let c := env.newClient
    match env.sendCode with
    | SendCodeRes.ok h =>
      let entry : Attempt :=
        { step := "waiting_otp",
          data := some { client := c, phone := phone_number,
                         phone_code_hash := h, country := country } }
      ({ w with login_states := setEntry w.login_states user_id (some entry) },
       [Eff.sendCode c], true, "OTP sent successfully")
    | SendCodeRes.floodWait n =>
      (w, [Eff.sendCode c, Eff.disconnect c], false,
       errOr (floodMsg n) "Failed to send OTP")
    | SendCodeRes.err e =>
      (w, [Eff.sendCode c, Eff.disconnect c], false,
       errOr e "Failed to send OTP")

/-- Outcome of `PyrogramClientManager.sign_in_with_otp` (account.py lines
119-133): `(True, None, None)` on success, `(False, "password_required",
None)` when `SessionPasswordNeeded` is raised, `(False, "error", str(e))`
otherwise. -/
inductive SignInOtpRes where
  | success
  | passwordRequired
  | err (msg : String)
  deriving DecidableEq

/-- Environment of one `verify_otp_and_save_async` run: the sign-in
outcome, what `get_session_string` returns (`none` models Python `None`),
whether `accounts_col.insert_one` succeeds or raises, and the current
time used for `created_at`. -/
structure OtpEnv where
  signIn : SignInOtpRes
  sessionString : Option String
  insertOk : Bool
  now : Nat

/-- The document inserted by `verify_otp_and_save_async` on full success
(account.py lines 237-247). -/
def otpDoc (d : FlowData) (ss : String) (user_id : UserId) (now : Nat) : Doc :=
  { country := some d.country, phone := some d.phone,
    session_string := some ss, has_2fa := some false,
    two_step_password := none, status := some "active",
    used := some false, created_at := some now,
    created_by := some user_id }

/-- Shallow embedding of `verify_otp_and_save_async` (account.py lines
208-256).  A missing entry returns "Session expired"; an entry whose
flow fields are missing raises `KeyError` at `state["client"]`, which the
catch-all `except` turns into a pop plus failure return with no
disconnect; an insert that raises takes the same `except` path. -/
def verify_otp_and_save (env : OtpEnv) (w : World) (user_id : UserId) :
    World × List Eff × Bool × String :=
  match w.login_states user_id with
  | none => (w, [], false, "Session expired")
  | some st =>
    match st.data with
    | none =>
      ({ w with login_states := setEntry w.login_states user_id none }, [],
       false, "KeyError: client")
    | some d =>
      match env.signIn with
      | SignInOtpRes.passwordRequired =>
        let entry : Attempt := { st with step := "waiting_password" }
        ({ w with login_states := setEntry w.login_states user_id (some entry) },
         [], false, "password_required")
      | SignInOtpRes.err e =>
        ({ w with login_states := setEntry w.login_states user_id none },
         [Eff.disconnect d.client], false, errOr e "OTP verification failed")
      | SignInOtpRes.success =>
        match env.sessionString with
        | none => (w, [], false, "Failed to get session string")
        | some ss =>
          if ss = "" then (w, [], false, "Failed to get session string")
          else
            let doc := otpDoc d ss user_id env.now
            if env.insertOk then
              ({ login_states := setEntry w.login_states user_id none,
                 accounts := w.accounts ++ [doc] },
               [Eff.insert doc, Eff.disconnect d.client], true,
               "Account added successfully")
            else
              ({ w with login_states := setEntry w.login_states user_id none },
               [], false, "insert failed")

/-- Environment of one `verify_2fa_password_async` run:
`sign_in_with_password` outcome, `get_session_string` outcome, whether
the insert succeeds, and the clock. -/
structure TfaEnv where
  checkPassword : Except String Unit
  sessionString : Option String
  insertOk : Bool
  now : Nat

/-- The document inserted by `verify_2fa_password_async` on full success
(account.py lines 273-283); note it stores the raw password and sets
`created_by`, not `user_id`. -/
def tfaDoc (d : FlowData) (ss password : String) (user_id : UserId) (now : Nat) : Doc :=
  { country := some d.country, phone := some d.phone,
    session_string := some ss, has_2fa := some true,
    two_step_password := some password, status := some "active",
    used := some false, created_at := some now,
    created_by := some user_id }

/-- Shallow embedding of `verify_2fa_password_async` (account.py lines
259-292).  Unlike the other two flows it has no membership guard: a
missing entry raises `KeyError` at `login_states[user_id]`, the catch-all
`except` pops (a no-op) and returns `(False, str(e))` where `str` of a
`KeyError` on an int key is the decimal key itself. -/
def verify_2fa_password (env : TfaEnv) (w : World) (user_id : UserId)
    (password : String) : World × List Eff × Bool × String :=
  match w.login_states user_id with
  | none =>
    ({ w with login_states := setEntry w.login_states user_id none }, [],
     false, toString user_id)
  | some st =>
    match st.data with
    | none =>
      ({ w with login_states := setEntry w.login_states user_id none }, [],
       false, "KeyError: client")
    | some d =>
      match env.checkPassword with
      | Except.error e => (w, [], false, e)
      | Except.ok _ =>
        match env.sessionString with
        | none => (w, [], false, "Failed to get session string")
        | some ss =>
          if ss = "" then (w, [], false, "Failed to get session string")
          else
            let doc := tfaDoc d ss password user_id env.now
            if env.insertOk then
              ({ login_states := setEntry w.login_states user_id none,
                 accounts := w.accounts ++ [doc] },
               [Eff.insert doc, Eff.disconnect d.client], true,
               "Account added successfully")
            else
              ({ w with login_states := setEntry w.login_states user_id none },
               [], false, "insert failed")

/-- The two Mongo lookups used by bot.py.  `find_by_owner_and_phone` is
the filter of `accounts_col.find_one` in the callback handler (bot.py
lines 90 and 116): it matches documents whose `user_id` field equals the
requesting user and whose `phone` field equals the chosen phone. -/
def find_by_owner_and_phone (accounts : List Doc) (uid : UserId)
    (phone : String) : Option Doc :=
  accounts.find? (fun doc =>
    decide (doc.user_id = some uid) && decide (doc.phone = some phone))

/-- The same lookup keyed on the field account.py actually writes
(`created_by`); used to state the amended round-trip property. -/
def find_by_creator_and_phone (accounts : List Doc) (uid : UserId)
    (phone : String) : Option Doc :=
  accounts.find? (fun doc =>
    decide (doc.created_by = some uid) && decide (doc.phone = some phone))

/-- One `user_state[uid]` dictionary of bot.py: `step` is always present,
`phone` and `hash` only after the phone step succeeded. -/
structure BotState where
  step : String
  phone : Option String := none
  hash : Option String := none
  deriving DecidableEq

/-- Pointwise update of bot.py's `user_state` dictionary. -/
def setBotEntry (m : UserId → Option BotState) (k : UserId)
    (v : Option BotState) : UserId → Option BotState :=
  fun u => if u = k then v else m u

/-- Pointwise update of bot.py's `temp_clients` dictionary. -/
def setClient (m : UserId → Option ClientId) (k : UserId)
    (v : Option ClientId) : UserId → Option ClientId :=
  fun u => if u = k then v else m u

/-- The mutable state of bot.py: `user_state`, `temp_clients` and the
shared `accounts_col` collection. -/
structure BotWorld where
  user_state : UserId → Option BotState
  temp_clients : UserId → Option ClientId
  accounts : List Doc

/-- What the text handler of bot.py does with one incoming message, as
seen by the user: no reply at all (`ignored`), one of the replies, or an
exception escaping the handler (`raised`). -/
inductive BotOutcome where
  | ignored
  | floodWaitMsg (seconds : Nat)
  | sendFailed (e : String)
  | otpSent
  | askPassword
  | added
  | raised (e : String)
  deriving DecidableEq

/-- Outcome of the bare `client.sign_in` call in bot.py (lines 199-203):
only `SessionPasswordNeeded` is caught; any other error escapes. -/
inductive BotSignInRes where
  | ok
  | passwordNeeded
  | raises (e : String)
  deriving DecidableEq

/-- Environment of one bot.py text-handler run: fresh client identity and
the outcomes of the external client calls it may perform. -/
structure BotEnv where
  newClient : ClientId
  sendCode : SendCodeRes
  signIn : BotSignInRes
  checkPassword : Except String Unit
  exportedSession : String
  now : Nat

/-- The document inserted by `save_account` (bot.py lines 228-234). -/
def botDoc (user_id : UserId) (phone session : String) (two_step : Bool)
    (now : Nat) : Doc :=
  { user_id := some user_id, phone := some phone, session := some session,
    two_step := some two_step, added_at := some now }

/-- Shallow embedding of `save_account` (bot.py lines 226-235): export
the session string, insert one document, then disconnect the client. -/
def save_account (env : BotEnv) (w : BotWorld) (user_id : UserId)
    (phone : String) (client : ClientId) (two_step : Bool) :
    BotWorld × List Eff :=
  let doc := botDoc user_id phone env.exportedSession two_step env.now
  ({ w with accounts := w.accounts ++ [doc] },
   [Eff.insert doc, Eff.disconnect client])

/-- Shallow embedding of `cleanup` (bot.py lines 237-239): pop both
dictionaries.  The body performs no client operation, so its effect
trace is empty. -/
def cleanup (w : BotWorld) (user_id : UserId) : BotWorld × List Eff :=
  ({ w with user_state := setBotEntry w.user_state user_id none,
            temp_clients := setClient w.temp_clients user_id none }, [])

/-- Shallow embedding of `text_handler` (bot.py lines 149-223).  A user
with no `user_state` entry is silently ignored; the phone step creates a
fresh client, and on `FloodWait` or any other `send_code` error replies
and disconnects, leaving `user_state` unchanged; the OTP and password
steps read `temp_clients[uid]` and the saved phone (a missing key raises
`KeyError` out of the handler), and only `SessionPasswordNeeded` is
caught around `sign_in`, every other client error escaping the handler. -/
def bot_text_handler (env : BotEnv) (w : BotWorld) (user_id : UserId)
    (text : String) : BotWorld × List Eff × BotOutcome :=
  match w.user_state user_id with
  | none => (w, [], BotOutcome.ignored)
  | some st =>
    if st.step = "phone" then
      let c := env.newClient
      match env.sendCode with
      | SendCodeRes.floodWait n =>
        (w, [Eff.sendCode c, Eff.disconnect c], BotOutcome.floodWaitMsg n)
      | SendCodeRes.err e =>
        (w, [Eff.sendCode c, Eff.disconnect c], BotOutcome.sendFailed e)
      | SendCodeRes.ok h =>
        let entry : BotState := { step := "otp", phone := some text, hash := some h }
        ({ w with user_state := setBotEntry w.user_state user_id (some entry),
                  temp_clients := setClient w.temp_clients user_id (some c) },
         [Eff.sendCode c], BotOutcome.otpSent)
    else if st.step = "otp" then
      match w.temp_clients user_id with
      | none => (w, [], BotOutcome.raised "KeyError")
      | some c =>
        match st.phone, st.hash with
        | some ph, some _ =>
          match env.signIn with
          | BotSignInRes.passwordNeeded =>
            let entry : BotState := { st with step := "password" }
            ({ w with user_state := setBotEntry w.user_state user_id (some entry) },
             [], BotOutcome.askPassword)
          | BotSignInRes.raises e => (w, [], BotOutcome.raised e)
          | BotSignInRes.ok =>
            let res := save_account env w user_id ph c false
            ((cleanup res.1 user_id).1, res.2, BotOutcome.added)
        | _, _ => (w, [], BotOutcome.raised "KeyError")
    else if st.step = "password" then
      match w.temp_clients user_id with
      | none => (w, [], BotOutcome.raised "KeyError")
      | some c =>
        match st.phone with
        | some ph =>
          match env.checkPassword with
          | Except.error e => (w, [], BotOutcome.raised e)
          | Except.ok _ =>
            let res := save_account env w user_id ph c true
            ((cleanup res.1 user_id).1, res.2, BotOutcome.added)
        | none => (w, [], BotOutcome.raised "KeyError")
    else (w, [], BotOutcome.ignored)

/-- A Pyrogram client as `safe_disconnect` observes it: whether
`is_connected` is truthy, whether the inner `client.session` attribute
exists and is truthy, and whether `session.stop()` and
`client.disconnect()` raise when called. -/
structure PClient where
  is_connected : Bool
  has_session : Bool
  session_stop : Except String Unit
  disconnect_res : Except String Unit

/-- Teardown actions attempted by `safe_disconnect`, in order. -/
inductive TearAct where
  | stopSession
  | disconnect
  deriving DecidableEq

/-- The body of `safe_disconnect` without its outer `except` (account.py
lines 163-169): stop the inner session (its own error swallowed by the
inner `except: pass`), then call `disconnect`, whose error would escape
the body.  Returns the attempted actions and the escaping error. -/
def disconnect_attempt (cl : PClient) : List TearAct × Option String :=
  if cl.is_connected then
    let stopActs : List TearAct :=
      if cl.has_session then
        match cl.session_stop with
        | Except.ok _ => [TearAct.stopSession]
        | Except.error _ => [TearAct.stopSession]
      else []
    match cl.disconnect_res with
    | Except.ok _ => (stopActs ++ [TearAct.disconnect], none)
    | Except.error e => (stopActs ++ [TearAct.disconnect], some e)
  else ([], none)

/-- Shallow embedding of `safe_disconnect` (account.py lines 161-171):
a falsy (`none`) client is a no-op, and the outer `except: pass`
swallows any error the body raises, so the second component — the error
escaping to the caller — is always `none`. -/
def safe_disconnect (c : Option PClient) : List TearAct × Option String :=
  match c with
  | none => ([], none)
  | some cl =>
    let r := disconnect_attempt cl
    (r.1, none)

/-- Python `\w` word characters, restricted to ASCII as used by the OTP
messages: letters, digits and the underscore. -/
def isWordChar (c : Char) : Bool :=
  c.isAlphanum || c == '_'

/-- A `\b` word boundary holds before a digit exactly when the previous
character (if any) is not a word character. -/
def boundaryOk (prev : Option Char) : Bool :=
  match prev with
  | none => true
  | some p => !isWordChar p

/-- Try to match five digits followed by a word boundary at the head of
the character list. -/
def fiveDigitsAt : List Char → Option (List Char)
  | c1 :: c2 :: c3 :: c4 :: c5 :: rest =>
    if c1.isDigit && c2.isDigit && c3.isDigit && c4.isDigit && c5.isDigit then
      match rest with
      | [] => some [c1, c2, c3, c4, c5]
      | r :: _ => if isWordChar r then none else some [c1, c2, c3, c4, c5]
    else none
  | _ => none

/-- Leftmost match of the pattern used in `fetch_latest_otp`: scan every
position left to right, carrying the previous character to decide the
leading word boundary. -/
def searchFive : Option Char → List Char → Option (List Char)
  | _, [] => none
  | prev, c :: rest =>
    match (if boundaryOk prev then fiveDigitsAt (c :: rest) else none) with
    | some m => some m
    | none => searchFive (some c) rest

/-- `re.search` of the raw pattern backslash-b, five digits, backslash-b
(bot.py line 242) on a message text, returning the matched substring. -/
def findFive (s : String) : Option String :=
  (searchFive none s.data).map (fun l => String.mk l)

/-- The loop body of `fetch_latest_otp` with an explicit remaining-limit
counter: stop after the limit, skip messages without text, return the
first regex match. -/
def fetchGo : Nat → List (Option String) → Option String
  | 0, _ => none
  | _ + 1, [] => none
  | n + 1, m :: rest =>
    match m with
    | some t =>
      match findFive t with
      | some s => some s
      | none => fetchGo n rest
    | none => fetchGo n rest

/-- Shallow embedding of `fetch_latest_otp` (bot.py lines 241-248).  The
argument is the text of the service-chat messages in the order
`get_chat_history(777000, limit=20)` yields them, namely newest first;
`none` entries are messages without text. -/
def fetch_latest_otp (history : List (Option String)) : Option String :=
  fetchGo 20 history

theorem fiveDigitsAt_spec : ∀ l m, fiveDigitsAt l = some m →
    m.length = 5 ∧ m.all Char.isDigit = true := by
  intro l m h
  rcases l with _ | ⟨c1, _ | ⟨c2, _ | ⟨c3, _ | ⟨c4, _ | ⟨c5, rest⟩⟩⟩⟩⟩ <;>
    simp only [fiveDigitsAt] at h
  · exact absurd h (by simp)
  · exact absurd h (by simp)
  · exact absurd h (by simp)
  · exact absurd h (by simp)
  · exact absurd h (by simp)
  · split at h
    · rename_i hd
      simp only [Bool.and_eq_true] at hd
      split at h
      · simp only [Option.some.injEq] at h
        subst h
        exact ⟨rfl, by simp [hd.1.1.1.1, hd.1.1.1.2, hd.1.1.2, hd.1.2, hd.2]⟩
      · split at h
        · exact absurd h (by simp)
        · simp only [Option.some.injEq] at h
          subst h
          exact ⟨rfl, by simp [hd.1.1.1.1, hd.1.1.1.2, hd.1.1.2, hd.1.2, hd.2]⟩
    · exact absurd h (by simp)

theorem searchFive_nil (prev : Option Char) : searchFive prev [] = none := rfl

theorem searchFive_cons (prev : Option Char) (c : Char) (rest : List Char) :
    searchFive prev (c :: rest) =
      match (if boundaryOk prev then fiveDigitsAt (c :: rest) else none) with
      | some m => some m
      | none => searchFive (some c) rest := rfl

theorem searchFive_spec : ∀ prev l m, searchFive prev l = some m →
    m.length = 5 ∧ m.all Char.isDigit = true := by
  intro prev l
  induction l generalizing prev with
  | nil =>
    intro m h
    rw [searchFive_nil] at h
    exact absurd h (by simp)
  | cons c rest ih =>
    intro m h
    rw [searchFive_cons] at h
    rcases hb : (if boundaryOk prev then fiveDigitsAt (c :: rest) else none) with _ | m2 <;>
      rw [hb] at h
    · exact ih (some c) m h
    · simp only [Option.some.injEq] at h
      subst h
      rcases hbo : boundaryOk prev with _ | _ <;> rw [hbo] at hb
      · exact absurd hb (by simp)
      · simp only [if_true] at hb
        exact fiveDigitsAt_spec _ _ hb

theorem findFive_spec (s : String) (r : String) (h : findFive s = some r) :
    r.length = 5 ∧ r.data.all Char.isDigit = true := by
  unfold findFive at h
  rcases hm : searchFive none s.data with _ | m
  · rw [hm] at h
    exact absurd h (by simp)
  · rw [hm] at h
    simp only [Option.map_some', Option.some.injEq] at h
    subst h
    have h5 := searchFive_spec none s.data m hm
    exact ⟨by simpa [String.length_mk] using h5.1, h5.2⟩

theorem fetchGo_spec : ∀ n l s, fetchGo n l = some s →
    s.length = 5 ∧ s.data.all Char.isDigit = true := by
  intro n
  induction n with
  | zero => intro l s h; simp [fetchGo] at h
  | succ n ih =>
    intro l s h
    rcases l with _ | ⟨m, rest⟩
    · simp [fetchGo] at h
    · rcases m with _ | t
      · exact ih rest s (by simpa [fetchGo] using h)
      · simp only [fetchGo] at h
        rcases hf : findFive t with _ | r <;> rw [hf] at h
        · exact ih rest s h
        · cases h
          exact findFive_spec t s hf

theorem fetchGo_zero (l : List (Option String)) : fetchGo 0 l = none := rfl

theorem fetchGo_succ_nil (n : Nat) : fetchGo (n + 1) [] = none := rfl

theorem fetchGo_succ_none (n : Nat) (rest : List (Option String)) :
    fetchGo (n + 1) (none :: rest) = fetchGo n rest := rfl

theorem fetchGo_succ_some (n : Nat) (t : String) (rest : List (Option String)) :
    fetchGo (n + 1) (some t :: rest) =
      (match findFive t with
       | some s => some s
       | none => fetchGo n rest) := rfl

theorem fetchGo_eq_findSome (n : Nat) (l : List (Option String)) :
    fetchGo n l = (l.take n).findSome? (fun m => m.bind findFive) := by
  induction n generalizing l with
  | zero => simp [fetchGo_zero]
  | succ n ih =>
    rcases l with _ | ⟨m, rest⟩
    · simp [fetchGo_succ_nil]
    · rcases m with _ | t
      · rw [fetchGo_succ_none, List.take_succ_cons, List.findSome?_cons]
        simpa using ih rest
      · rw [fetchGo_succ_some, List.take_succ_cons, List.findSome?_cons]
        rcases hf : findFive t with _ | r <;>
          simp only [Option.some_bind, hf]
        exact ih rest

/-- C10: `fetch_latest_otp` examines at most the 20 newest messages of
the service chat in the order the history iterator yields them (newest
first) and returns the first standalone five-digit match; if none of
those messages contains one it returns `none`, and any returned code is
exactly five digits long. -/
theorem fetch_latest_otp_spec (history : List (Option String)) :
    fetch_latest_otp history =
      (history.take 20).findSome? (fun m => m.bind findFive)
    ∧ (∀ s, fetch_latest_otp history = some s →
        s.length = 5 ∧ s.data.all Char.isDigit = true) :=
  ⟨fetchGo_eq_findSome 20 history, fun s h => fetchGo_spec 20 history s h⟩

theorem fetch_latest_otp_spec_witness :
    fetch_latest_otp [some "your login code is 54321 now", some "99999"] =
      ([some "your login code is 54321 now",
        some "99999"].take 20).findSome? (fun m => m.bind findFive)
    ∧ ("54321".length = 5 ∧ "54321".data.all Char.isDigit = true) :=
  ⟨(fetch_latest_otp_spec _).1,
   (fetch_latest_otp_spec [some "your login code is 54321 now", some "99999"]).2
     "54321" (by decide)⟩

/-- C9: `safe_disconnect` never lets an error escape to its caller, for
any client: a falsy or never-connected client is a no-op (so repeated
calls are safe), and when the client is connected and has an inner
session object that session is stopped before the connection is torn
down, with any error of the inner stop (and of the disconnect itself)
swallowed. -/
theorem safe_disconnect_never_raises (c : Option PClient) :
    (safe_disconnect c).2 = none
    ∧ (safe_disconnect none).1 = []
    ∧ (∀ cl : PClient, cl.is_connected = false →
        safe_disconnect (some cl) = ([], none))
    ∧ (∀ cl : PClient, cl.is_connected = true → cl.has_session = true →
        (safe_disconnect (some cl)).1 = [TearAct.stopSession, TearAct.disconnect])
    ∧ (∀ cl : PClient, cl.is_connected = true → cl.has_session = false →
        (safe_disconnect (some cl)).1 = [TearAct.disconnect]) := by
  refine ⟨?_, rfl, ?_, ?_, ?_⟩
  · cases c <;> simp [safe_disconnect]
  · intro cl h
    simp [safe_disconnect, disconnect_attempt, h]
  · intro cl h1 h2
    rcases hs : cl.session_stop with e | u <;> rcases hd : cl.disconnect_res with e2 | u2 <;>
      simp [safe_disconnect, disconnect_attempt, h1, h2, hs, hd]
  · intro cl h1 h2
    rcases hd : cl.disconnect_res with e2 | u2 <;>
      simp [safe_disconnect, disconnect_attempt, h1, h2, hd]

/-- A connected client with a live inner session whose stop and
disconnect both raise. -/
def pcl0 : PClient :=
  { is_connected := true, has_session := true,
    session_stop := Except.error "stop failed",
    disconnect_res := Except.error "disconnect failed" }

theorem safe_disconnect_never_raises_witness :
    (safe_disconnect (some pcl0)).2 = none
    ∧ (safe_disconnect none).1 = []
    ∧ safe_disconnect (some { pcl0 with is_connected := false }) = ([], none)
    ∧ (safe_disconnect (some pcl0)).1 = [TearAct.stopSession, TearAct.disconnect]
    ∧ (safe_disconnect (some { pcl0 with has_session := false })).1 = [TearAct.disconnect] :=
  ⟨(safe_disconnect_never_raises (some pcl0)).1,
   (safe_disconnect_never_raises none).2.1,
   (safe_disconnect_never_raises none).2.2.1 _ rfl,
   (safe_disconnect_never_raises none).2.2.2.1 pcl0 rfl rfl,
   (safe_disconnect_never_raises none).2.2.2.2 _ rfl rfl⟩

/-- Number of code requests in a trace. -/
def sendCodes (tr : List Eff) : Nat :=
  (tr.filter (fun e => match e with
    | Eff.sendCode _ => true
    | _ => false)).length

/-- The flow data of the attempt used in the concrete scenarios: client 0
holds the open connection for phone "p". -/
def d0 : FlowData :=
  { client := 0, phone := "p", phone_code_hash := "h", country := "US" }

/-- An attempt awaiting its OTP, holding client 0. -/
def st0 : Attempt := { step := "waiting_otp", data := some d0 }

/-- A store holding exactly one attempt, for user 1. -/
def w1 : World :=
  { login_states := setEntry (fun _ => none) 1 (some st0), accounts := [] }

/-- A store holding exactly one attempt, for user 7. -/
def w7 : World :=
  { login_states := setEntry (fun _ => none) 7 (some st0), accounts := [] }

/-- An empty store. -/
def emptyW : World := { login_states := fun _ => none, accounts := [] }

/-- Code verification succeeds but the session-string export fails. -/
def envExportFail : OtpEnv :=
  { signIn := SignInOtpRes.success, sessionString := none,
    insertOk := true, now := 0 }

/-- Code verification and export succeed and the insert works. -/
def envOtpFull : OtpEnv :=
  { signIn := SignInOtpRes.success, sessionString := some "s",
    insertOk := true, now := 0 }

/-- Code verification and export succeed but the insert raises. -/
def envInsertRaise : OtpEnv :=
  { signIn := SignInOtpRes.success, sessionString := some "s",
    insertOk := false, now := 0 }

/-- The second factor is accepted but the session-string export fails. -/
def envTfaExportFail : TfaEnv :=
  { checkPassword := Except.ok (), sessionString := none,
    insertOk := true, now := 0 }

/-- The second factor is accepted, export and insert succeed. -/
def envTfaFull : TfaEnv :=
  { checkPassword := Except.ok (), sessionString := some "s",
    insertOk := true, now := 0 }

/-- A 2FA environment whose password check fails. -/
def envTfaAny : TfaEnv :=
  { checkPassword := Except.error "wrong password", sessionString := none,
    insertOk := true, now := 0 }

/-- Every run of the OTP verifier produces one of three traces: nothing,
one disconnect, or one insert followed by one disconnect of the stored
client. -/
theorem otp_trace_cases (env : OtpEnv) (w : World) (u : UserId) :
    (verify_otp_and_save env w u).2.1 = []
    ∨ (∃ c, (verify_otp_and_save env w u).2.1 = [Eff.disconnect c])
    ∨ (∃ d ss, (verify_otp_and_save env w u).2.1 =
        [Eff.insert (otpDoc d ss u env.now), Eff.disconnect d.client]) := by
  unfold verify_otp_and_save
  rcases hls : w.login_states u with _ | st <;> simp only [hls]
  · exact Or.inl (by trivial)
  · rcases hd : st.data with _ | d <;> simp only [hd]
    · exact Or.inl (by trivial)
    · rcases hs : env.signIn with _ | _ | e <;> simp only [hs]
      · rcases hss : env.sessionString with _ | ss <;> simp only [hss]
        · exact Or.inl (by trivial)
        · by_cases hempty : ss = ""
          · rw [if_pos hempty]
            exact Or.inl (by trivial)
          · rw [if_neg hempty]
            rcases hins : env.insertOk with _ | _
            · exact Or.inl (by trivial)
            · exact Or.inr (Or.inr ⟨d, ss, by trivial⟩)
      · exact Or.inl (by trivial)
      · exact Or.inr (Or.inl ⟨d.client, by trivial⟩)

/-- Same classification for the 2FA verifier. -/
theorem tfa_trace_cases (env : TfaEnv) (w : World) (u : UserId) (p : String) :
    (verify_2fa_password env w u p).2.1 = []
    ∨ (∃ d ss, (verify_2fa_password env w u p).2.1 =
        [Eff.insert (tfaDoc d ss p u env.now), Eff.disconnect d.client]) := by
  unfold verify_2fa_password
  rcases hls : w.login_states u with _ | st <;> simp only [hls]
  · exact Or.inl (by trivial)
  · rcases hd : st.data with _ | d <;> simp only [hd]
    · exact Or.inl (by trivial)
    · rcases hc : env.checkPassword with e | uu <;> simp only [hc]
      · exact Or.inl (by trivial)
      · rcases hss : env.sessionString with _ | ss <;> simp only [hss]
        · exact Or.inl (by trivial)
        · by_cases hempty : ss = ""
          · rw [if_pos hempty]
            exact Or.inl (by trivial)
          · rw [if_neg hempty]
            rcases hins : env.insertOk with _ | _
            · exact Or.inl (by trivial)
            · exact Or.inr ⟨d, ss, by trivial⟩

/-- Every document the OTP verifier inserts carries a session credential. -/
theorem otp_inserts_have_credential (env : OtpEnv) (w : World) (u : UserId)
    (dd : Doc) (h : dd ∈ inserts (verify_otp_and_save env w u).2.1) :
    dd.session_string ≠ none := by
  rcases otp_trace_cases env w u with h0 | ⟨c, h1⟩ | ⟨d, ss, h2⟩
  · rw [h0] at h
    simp [inserts] at h
  · rw [h1] at h
    simp [inserts] at h
  · rw [h2] at h
    simp [inserts] at h
    subst h
    simp [otpDoc]

/-- Every document the 2FA verifier inserts carries a session credential. -/
theorem tfa_inserts_have_credential (env : TfaEnv) (w : World) (u : UserId)
    (p : String) (dd : Doc)
    (h : dd ∈ inserts (verify_2fa_password env w u p).2.1) :
    dd.session_string ≠ none := by
  rcases tfa_trace_cases env w u p with h0 | ⟨d, ss, h2⟩
  · rw [h0] at h
    simp [inserts] at h
  · rw [h2] at h
    simp [inserts] at h
    subst h
    simp [tfaDoc]

/-- C1 counterexample: user 1 has an attempt with client 0 open, code
verification succeeds, and the export returns no credential; the run
keeps the store entry, performs no effect at all (in particular no
disconnect), and merely returns a failure — refuting "the attempt fails
with the store entry removed and the network connection disconnected". -/
theorem export_failure_keeps_entry_cx :
    (verify_otp_and_save envExportFail w1 1).1.login_states 1 = some st0
    ∧ (verify_otp_and_save envExportFail w1 1).1.login_states 1 ≠ none
    ∧ (verify_otp_and_save envExportFail w1 1).2.1 = []
    ∧ disconnects (verify_otp_and_save envExportFail w1 1).2.1 0 = 0
    ∧ (verify_otp_and_save envExportFail w1 1).2.2.1 = false := by
  refine ⟨by decide, by decide, by decide, by decide, by decide⟩

/-- C1 (amended): when code (or second-factor) verification succeeds but
the session-string export fails, the attempt fails — `False` is returned
and nothing is written — but the store entry is retained and the
connection is left open (no disconnect), the run having no effect; and
independently, every record either verifier ever inserts carries a
non-missing session credential. -/
theorem export_failure_contract (env : OtpEnv) (env2 : TfaEnv) (w w2 : World)
    (u u2 : UserId) (st st2 : Attempt) (d d2 : FlowData) (p : String)
    (envA : OtpEnv) (wA : World) (uA : UserId) (ddA : Doc)
    (envB : TfaEnv) (wB : World) (uB : UserId) (pB : String) (ddB : Doc)
    (hw : w.login_states u = some st) (hd : st.data = some d)
    (hs : env.signIn = SignInOtpRes.success) (hss : env.sessionString = none)
    (hw2 : w2.login_states u2 = some st2) (hd2 : st2.data = some d2)
    (hc : env2.checkPassword = Except.ok ()) (hss2 : env2.sessionString = none)
    (hA : ddA ∈ inserts (verify_otp_and_save envA wA uA).2.1)
    (hB : ddB ∈ inserts (verify_2fa_password envB wB uB pB).2.1) :
    verify_otp_and_save env w u = (w, [], false, "Failed to get session string")
    ∧ verify_2fa_password env2 w2 u2 p =
        (w2, [], false, "Failed to get session string")
    ∧ ddA.session_string ≠ none
    ∧ ddB.session_string ≠ none := by
  refine ⟨?_, ?_, otp_inserts_have_credential envA wA uA ddA hA,
          tfa_inserts_have_credential envB wB uB pB ddB hB⟩
  · unfold verify_otp_and_save
    simp only [hw, hd, hs, hss]
  · unfold verify_2fa_password
    simp only [hw2, hd2, hc, hss2]

theorem export_failure_contract_witness :
    verify_otp_and_save envExportFail w1 1 =
      (w1, [], false, "Failed to get session string")
    ∧ verify_2fa_password envTfaExportFail w1 1 "pw" =
        (w1, [], false, "Failed to get session string")
    ∧ (otpDoc d0 "s" 1 0).session_string ≠ none
    ∧ (tfaDoc d0 "s" "pw" 1 0).session_string ≠ none :=
  export_failure_contract envExportFail envTfaExportFail w1 w1 1 1 st0 st0 d0 d0
    "pw" envOtpFull w1 1 (otpDoc d0 "s" 1 0) envTfaFull w1 1 "pw"
    (tfaDoc d0 "s" "pw" 1 0) (by decide) rfl rfl rfl (by decide) rfl rfl rfl
    (by decide) (by decide)

/-- C5 counterexample: submitCode succeeded with no second factor, yet —
the export having failed — zero StoredCredential records are written (not
exactly one), the entry is not removed, and no disconnect happens. -/
theorem otp_success_without_record_cx :
    inserts (verify_otp_and_save envExportFail w1 1).2.1 = []
    ∧ (verify_otp_and_save envExportFail w1 1).1.accounts = []
    ∧ (verify_otp_and_save envExportFail w1 1).1.login_states 1 ≠ none
    ∧ disconnects (verify_otp_and_save envExportFail w1 1).2.1 0 = 0 := by
  refine ⟨by decide, by decide, by decide, by decide⟩

/-- C5 (amended): when submitCode succeeds with no second factor AND the
session export and the durable insert also succeed, exactly one
StoredCredential is written — with `has_2fa` false and no second-factor
secret — the user's entry is removed, and the stored client is
disconnected exactly once. -/
theorem otp_success_finalizes (env : OtpEnv) (w : World) (u : UserId)
    (st : Attempt) (d : FlowData) (ss : String)
    (hw : w.login_states u = some st) (hd : st.data = some d)
    (hs : env.signIn = SignInOtpRes.success)
    (hss : env.sessionString = some ss) (hne : ss ≠ "")
    (hi : env.insertOk = true) :
    (verify_otp_and_save env w u).1.accounts =
      w.accounts ++ [otpDoc d ss u env.now]
    ∧ inserts (verify_otp_and_save env w u).2.1 = [otpDoc d ss u env.now]
    ∧ (otpDoc d ss u env.now).has_2fa = some false
    ∧ (otpDoc d ss u env.now).two_step_password = none
    ∧ (verify_otp_and_save env w u).1.login_states u = none
    ∧ disconnects (verify_otp_and_save env w u).2.1 d.client = 1
    ∧ (verify_otp_and_save env w u).2.2 = (true, "Account added successfully") := by
  have hred : verify_otp_and_save env w u =
      ({ login_states := setEntry w.login_states u none,
         accounts := w.accounts ++ [otpDoc d ss u env.now] },
       [Eff.insert (otpDoc d ss u env.now), Eff.disconnect d.client], true,
       "Account added successfully") := by
    unfold verify_otp_and_save
    simp only [hw, hd, hs, hss]
    rw [if_neg hne, hi]
    rfl
  rw [hred]
  refine ⟨rfl, by simp [inserts], rfl, rfl, by simp [setEntry],
          by simp [disconnects], rfl⟩

theorem otp_success_finalizes_witness :
    (verify_otp_and_save envOtpFull w1 1).1.accounts = [] ++ [otpDoc d0 "s" 1 0]
    ∧ inserts (verify_otp_and_save envOtpFull w1 1).2.1 = [otpDoc d0 "s" 1 0]
    ∧ (otpDoc d0 "s" 1 0).has_2fa = some false
    ∧ (otpDoc d0 "s" 1 0).two_step_password = none
    ∧ (verify_otp_and_save envOtpFull w1 1).1.login_states 1 = none
    ∧ disconnects (verify_otp_and_save envOtpFull w1 1).2.1 0 = 1
    ∧ (verify_otp_and_save envOtpFull w1 1).2.2 =
        (true, "Account added successfully") :=
  otp_success_finalizes envOtpFull w1 1 st0 d0 "s" (by decide) rfl rfl rfl
    (by decide) rfl

/-- Sign-in ends in `SessionPasswordNeeded`. -/
def envPw : OtpEnv :=
  { signIn := SignInOtpRes.passwordRequired, sessionString := none,
    insertOk := true, now := 0 }

/-- Sign-in fails with an error (e.g. an invalid code). -/
def envErr : OtpEnv :=
  { signIn := SignInOtpRes.err "The confirmation code is invalid",
    sessionString := none, insertOk := true, now := 0 }

/-- C2 counterexample: the durable insert raising is a terminal
transition — the entry is removed by the catch-all `except` — yet the
session of client 0 is disconnected zero times, not exactly once. -/
theorem terminal_without_disconnect_cx :
    (verify_otp_and_save envInsertRaise w1 1).1.login_states 1 = none
    ∧ disconnects (verify_otp_and_save envInsertRaise w1 1).2.1 0 = 0
    ∧ (verify_otp_and_save envInsertRaise w1 1).2.2.1 = false := by
  refine ⟨by decide, by decide, by decide⟩

/-- C2 (amended): on the non-exceptional terminal transitions — invalid
code and full success — the stored client is disconnected exactly once,
and the only non-terminal outcome keeping the session open is the move
to step "waiting_password"; but when an unexpected exception occurs
during processing (the durable insert raising), the entry is removed
with zero disconnects. -/
theorem disconnect_discipline (w : World) (u : UserId) (st : Attempt)
    (d : FlowData) (envP envE envS envX : OtpEnv) (e ssS ssX : String)
    (hw : w.login_states u = some st) (hd : st.data = some d)
    (hP : envP.signIn = SignInOtpRes.passwordRequired)
    (hE : envE.signIn = SignInOtpRes.err e)
    (hS1 : envS.signIn = SignInOtpRes.success)
    (hS2 : envS.sessionString = some ssS) (hS3 : ssS ≠ "")
    (hS4 : envS.insertOk = true)
    (hX1 : envX.signIn = SignInOtpRes.success)
    (hX2 : envX.sessionString = some ssX) (hX3 : ssX ≠ "")
    (hX4 : envX.insertOk = false) :
    ((verify_otp_and_save envP w u).1.login_states u =
        some { st with step := "waiting_password" }
      ∧ disconnects (verify_otp_and_save envP w u).2.1 d.client = 0)
    ∧ ((verify_otp_and_save envE w u).1.login_states u = none
      ∧ disconnects (verify_otp_and_save envE w u).2.1 d.client = 1)
    ∧ ((verify_otp_and_save envS w u).1.login_states u = none
      ∧ disconnects (verify_otp_and_save envS w u).2.1 d.client = 1)
    ∧ ((verify_otp_and_save envX w u).1.login_states u = none
      ∧ disconnects (verify_otp_and_save envX w u).2.1 d.client = 0) := by
  have hPr : verify_otp_and_save envP w u =
      ({ w with
          login_states :=
            setEntry w.login_states u (some { st with step := "waiting_password" }) },
       [], false, "password_required") := by
    unfold verify_otp_and_save
    simp only [hw, hd, hP]
  have hEr : verify_otp_and_save envE w u =
      ({ w with login_states := setEntry w.login_states u none },
       [Eff.disconnect d.client], false, errOr e "OTP verification failed") := by
    unfold verify_otp_and_save
    simp only [hw, hd, hE]
  have hSr : verify_otp_and_save envS w u =
      ({ login_states := setEntry w.login_states u none,
         accounts := w.accounts ++ [otpDoc d ssS u envS.now] },
       [Eff.insert (otpDoc d ssS u envS.now), Eff.disconnect d.client], true,
       "Account added successfully") := by
    unfold verify_otp_and_save
    simp only [hw, hd, hS1, hS2]
    rw [if_neg hS3, hS4]
    rfl
  have hXr : verify_otp_and_save envX w u =
      ({ w with login_states := setEntry w.login_states u none },
       [], false, "insert failed") := by
    unfold verify_otp_and_save
    simp only [hw, hd, hX1, hX2]
    rw [if_neg hX3, hX4]
    rfl
  refine ⟨⟨?_, ?_⟩, ⟨?_, ?_⟩, ⟨?_, ?_⟩, ⟨?_, ?_⟩⟩
  · rw [hPr]
    simp [setEntry]
  · rw [hPr]
    simp [disconnects]
  · rw [hEr]
    simp [setEntry]
  · rw [hEr]
    simp [disconnects]
  · rw [hSr]
    simp [setEntry]
  · rw [hSr]
    simp [disconnects]
  · rw [hXr]
    simp [setEntry]
  · rw [hXr]
    simp [disconnects]

theorem disconnect_discipline_witness :
    ((verify_otp_and_save envPw w1 1).1.login_states 1 =
        some { st0 with step := "waiting_password" }
      ∧ disconnects (verify_otp_and_save envPw w1 1).2.1 0 = 0)
    ∧ ((verify_otp_and_save envErr w1 1).1.login_states 1 = none
      ∧ disconnects (verify_otp_and_save envErr w1 1).2.1 0 = 1)
    ∧ ((verify_otp_and_save envOtpFull w1 1).1.login_states 1 = none
      ∧ disconnects (verify_otp_and_save envOtpFull w1 1).2.1 0 = 1)
    ∧ ((verify_otp_and_save envInsertRaise w1 1).1.login_states 1 = none
      ∧ disconnects (verify_otp_and_save envInsertRaise w1 1).2.1 0 = 0) :=
  disconnect_discipline w1 1 st0 d0 envPw envErr envOtpFull envInsertRaise
    "The confirmation code is invalid" "s" "s" (by decide) rfl rfl rfl rfl rfl
    (by decide) rfl rfl rfl (by decide) rfl

/-- C3 counterexample: a password submission for user 5 with no stored
entry does not crash but also does not report "Session expired": the
`KeyError` bubbles into the catch-all `except` and `str(e)` — the bare
key — is returned as the message. -/
theorem password_no_entry_cx :
    (verify_2fa_password envTfaAny emptyW 5 "pw").2.2.1 = false
    ∧ (verify_2fa_password envTfaAny emptyW 5 "pw").2.2.2 = "5"
    ∧ (verify_2fa_password envTfaAny emptyW 5 "pw").2.2.2 ≠ "Session expired" := by
  refine ⟨by decide, by decide, by decide⟩

/-- C3 (amended): with no entry stored for the user, the phone and code
operations return the failure "Session expired" and never raise; the
password operation also returns a failure without raising, but its
message is the stringified KeyError (the bare user id), not a
session-expired message. -/
theorem no_entry_behavior (env : FlowEnv) (envO : OtpEnv) (env2 : TfaEnv)
    (w : World) (u : UserId) (ph co p : String)
    (hw : w.login_states u = none) :
    pyrogram_login_flow env w u ph co = (w, [], false, "Session expired")
    ∧ verify_otp_and_save envO w u = (w, [], false, "Session expired")
    ∧ (verify_2fa_password env2 w u p).2 = ([], false, toString u) := by
  refine ⟨?_, ?_, ?_⟩
  · unfold pyrogram_login_flow
    simp only [hw]
  · unfold verify_otp_and_save
    simp only [hw]
  · unfold verify_2fa_password
    simp only [hw]

/-- A fresh client 1 whose code request succeeds. -/
def envFlowOk : FlowEnv := { newClient := 1, sendCode := SendCodeRes.ok "h1" }

/-- A fresh client 1 whose code request hits a 30-second flood wait. -/
def envFlood : FlowEnv := { newClient := 1, sendCode := SendCodeRes.floodWait 30 }

theorem no_entry_behavior_witness :
    pyrogram_login_flow envFlowOk emptyW 5 "p" "US" =
      (emptyW, [], false, "Session expired")
    ∧ verify_otp_and_save envOtpFull emptyW 5 =
        (emptyW, [], false, "Session expired")
    ∧ (verify_2fa_password envTfaAny emptyW 5 "pw").2 =
        ([], false, toString 5) :=
  no_entry_behavior envFlowOk envOtpFull envTfaAny emptyW 5 "p" "US" "pw" rfl

/-- bot.py state: user 1 is at the phone step while `temp_clients` still
holds the previous open client 0 (as happens after pressing "Add
Account" again mid-login). -/
def botW1 : BotWorld :=
  { user_state := setBotEntry (fun _ => none) 1 (some { step := "phone" }),
    temp_clients := setClient (fun _ => none) 1 (some 0),
    accounts := [] }

/-- A bot environment in which every external call succeeds; the fresh
client is client 1. -/
def envBotOk : BotEnv :=
  { newClient := 1, sendCode := SendCodeRes.ok "h1", signIn := BotSignInRes.ok,
    checkPassword := Except.ok (), exportedSession := "sess", now := 0 }

/-- Same but the code request hits a 30-second flood wait. -/
def envBotFlood : BotEnv :=
  { envBotOk with sendCode := SendCodeRes.floodWait 30 }

/-- C4 counterexample: user 1 already has an attempt holding open client
0; a new phone submission succeeds with fresh client 1, and in both
implementations the stored client is replaced by client 1 while the
whole trace contains no disconnect of client 0 — the old session is
silently leaked, refuting "released before being replaced (or
rejected)". -/
theorem replacement_leaks_cx :
    (pyrogram_login_flow envFlowOk w1 1 "p2" "FR").1.login_states 1 =
      some { step := "waiting_otp",
             data := some { client := 1, phone := "p2",
                            phone_code_hash := "h1", country := "FR" } }
    ∧ disconnects (pyrogram_login_flow envFlowOk w1 1 "p2" "FR").2.1 0 = 0
    ∧ (bot_text_handler envBotOk botW1 1 "+15551234567").1.temp_clients 1 = some 1
    ∧ disconnects (bot_text_handler envBotOk botW1 1 "+15551234567").2.1 0 = 0 := by
  refine ⟨by decide, by decide, by decide, by decide⟩

/-- C4 (amended): at most one entry per user exists (the stores are maps
keyed by the user id, and a run touches no other user's entry), but a
successful phone resubmission overwrites the stored entry and client
with the fresh one while the run performs no disconnect at all — the old
open session is silently leaked, in both the account flow and the bot
flow. -/
theorem replacement_no_release (env : FlowEnv) (w : World) (u : UserId)
    (st : Attempt) (ph co h1 : String) (benv : BotEnv) (bw : BotWorld)
    (bu : UserId) (bst : BotState) (btext bh : String)
    (hw : w.login_states u = some st) (hsc : env.sendCode = SendCodeRes.ok h1)
    (hbw : bw.user_state bu = some bst) (hbstep : bst.step = "phone")
    (hbsc : benv.sendCode = SendCodeRes.ok bh) :
    (pyrogram_login_flow env w u ph co).1.login_states u =
      some { step := "waiting_otp",
             data := some { client := env.newClient, phone := ph,
                            phone_code_hash := h1, country := co } }
    ∧ (pyrogram_login_flow env w u ph co).2.1 = [Eff.sendCode env.newClient]
    ∧ (∀ c, disconnects (pyrogram_login_flow env w u ph co).2.1 c = 0)
    ∧ (∀ v, v ≠ u → (pyrogram_login_flow env w u ph co).1.login_states v =
        w.login_states v)
    ∧ (bot_text_handler benv bw bu btext).1.temp_clients bu = some benv.newClient
    ∧ (bot_text_handler benv bw bu btext).2.1 = [Eff.sendCode benv.newClient] := by
  have hr : pyrogram_login_flow env w u ph co =
      ({ w with
          login_states := setEntry w.login_states u
              (some { step := "waiting_otp",
                      data := some { client := env.newClient, phone := ph,
                                     phone_code_hash := h1, country := co } }) },
       [Eff.sendCode env.newClient], true, "OTP sent successfully") := by
    unfold pyrogram_login_flow
    simp only [hw, hsc]
  have hbr : bot_text_handler benv bw bu btext =
      ({ bw with
          user_state := setBotEntry bw.user_state bu
              (some { step := "otp", phone := some btext, hash := some bh }),
          temp_clients := setClient bw.temp_clients bu (some benv.newClient) },
       [Eff.sendCode benv.newClient], BotOutcome.otpSent) := by
    unfold bot_text_handler
    simp only [hbw]
    rw [hbstep, hbsc]
    rfl
  refine ⟨?_, ?_, ?_, ?_, ?_, ?_⟩
  · rw [hr]
    simp [setEntry]
  · rw [hr]
  · intro c
    rw [hr]
    simp [disconnects]
  · intro v hv
    rw [hr]
    simp [setEntry, hv]
  · rw [hbr]
    simp [setClient]
  · rw [hbr]

theorem replacement_no_release_witness :
    (pyrogram_login_flow envFlowOk w1 1 "p2" "FR").1.login_states 1 =
      some { step := "waiting_otp",
             data := some { client := 1, phone := "p2",
                            phone_code_hash := "h1", country := "FR" } }
    ∧ (pyrogram_login_flow envFlowOk w1 1 "p2" "FR").2.1 = [Eff.sendCode 1]
    ∧ disconnects (pyrogram_login_flow envFlowOk w1 1 "p2" "FR").2.1 0 = 0
    ∧ (pyrogram_login_flow envFlowOk w1 1 "p2" "FR").1.login_states 2 =
        w1.login_states 2
    ∧ (bot_text_handler envBotOk botW1 1 "+15551234567").1.temp_clients 1 = some 1
    ∧ (bot_text_handler envBotOk botW1 1 "+15551234567").2.1 = [Eff.sendCode 1] := by
  have h := replacement_no_release envFlowOk w1 1 st0 "p2" "FR" "h1" envBotOk
    botW1 1 { step := "phone" } "+15551234567" "h1" (by decide) rfl (by decide)
    rfl rfl
  exact ⟨h.1, h.2.1, h.2.2.1 0, h.2.2.2.1 2 (by decide), h.2.2.2.2.1,
         h.2.2.2.2.2⟩

theorem floodMsg_ne_empty (n : Nat) : floodMsg n ≠ "" := by
  intro h
  have hd := congrArg String.data h
  simp only [floodMsg, String.data_append] at hd
  rcases List.append_eq_nil.mp hd with ⟨h1, h2⟩
  rcases List.append_eq_nil.mp h1 with ⟨h3, h4⟩
  exact absurd h3 (by decide)

/-- C6 counterexample: on RateLimited(30), the connection is disconnected
and the wait surfaced, but a LoginAttempt entry still remains for the
user in both implementations, refuting "no LoginAttempt entry remains". -/
theorem rate_limited_entry_remains_cx :
    (pyrogram_login_flow envFlood w1 1 "p" "US").1.login_states 1 = some st0
    ∧ (bot_text_handler envBotFlood botW1 1 "+15551234567").1.user_state 1 =
        some { step := "phone" }
    ∧ disconnects (pyrogram_login_flow envFlood w1 1 "p" "US").2.1 1 = 1 := by
  refine ⟨by decide, by decide, by decide⟩

/-- C6 (amended): on RateLimited(n) the fresh connection is disconnected
exactly once and the wait time is surfaced to the caller (in the returned
message for the account flow, in the reply outcome for the bot flow);
exactly one code request is issued, so the core does not retry; but the
store is left unchanged — the user's entry remains instead of being
removed. -/
theorem rate_limited_contract (env : FlowEnv) (w : World) (u : UserId)
    (st : Attempt) (ph co : String) (n : Nat) (benv : BotEnv) (bw : BotWorld)
    (bu : UserId) (bst : BotState) (btext : String)
    (hw : w.login_states u = some st)
    (hsc : env.sendCode = SendCodeRes.floodWait n)
    (hbw : bw.user_state bu = some bst) (hbstep : bst.step = "phone")
    (hbsc : benv.sendCode = SendCodeRes.floodWait n) :
    pyrogram_login_flow env w u ph co =
      (w, [Eff.sendCode env.newClient, Eff.disconnect env.newClient], false,
       floodMsg n)
    ∧ sendCodes (pyrogram_login_flow env w u ph co).2.1 = 1
    ∧ disconnects (pyrogram_login_flow env w u ph co).2.1 env.newClient = 1
    ∧ bot_text_handler benv bw bu btext =
        (bw, [Eff.sendCode benv.newClient, Eff.disconnect benv.newClient],
         BotOutcome.floodWaitMsg n) := by
  have hr : pyrogram_login_flow env w u ph co =
      (w, [Eff.sendCode env.newClient, Eff.disconnect env.newClient], false,
       errOr (floodMsg n) "Failed to send OTP") := by
    unfold pyrogram_login_flow
    simp only [hw, hsc]
  have herr : errOr (floodMsg n) "Failed to send OTP" = floodMsg n := by
    unfold errOr
    rw [if_neg (floodMsg_ne_empty n)]
  refine ⟨by rw [hr, herr], ?_, ?_, ?_⟩
  · rw [hr]
    simp [sendCodes]
  · rw [hr]
    simp [disconnects]
  · unfold bot_text_handler
    simp only [hbw]
    rw [hbstep, hbsc]
    rfl

theorem rate_limited_contract_witness :
    pyrogram_login_flow envFlood w1 1 "p" "US" =
      (w1, [Eff.sendCode 1, Eff.disconnect 1], false, floodMsg 30)
    ∧ sendCodes (pyrogram_login_flow envFlood w1 1 "p" "US").2.1 = 1
    ∧ disconnects (pyrogram_login_flow envFlood w1 1 "p" "US").2.1 1 = 1
    ∧ bot_text_handler envBotFlood botW1 1 "+15551234567" =
        (botW1, [Eff.sendCode 1, Eff.disconnect 1],
         BotOutcome.floodWaitMsg 30) :=
  rate_limited_contract envFlood w1 1 st0 "p" "US" 30 envBotFlood botW1 1
    { step := "phone" } "+15551234567" (by decide) rfl (by decide) rfl rfl

/-- C7 counterexample: user 1 is mid-login with open client 0; `cleanup 1`
removes both the state entry and the client reference but its body
performs no client operation — zero disconnects — so the open session is
leaked; and the next code submission for user 1 is silently ignored by
the text handler rather than answered with a session-expired failure. -/
theorem cleanup_no_disconnect_cx :
    (cleanup botW1 1).1.user_state 1 = none
    ∧ (cleanup botW1 1).1.temp_clients 1 = none
    ∧ (cleanup botW1 1).2 = []
    ∧ disconnects (cleanup botW1 1).2 0 = 0
    ∧ (bot_text_handler envBotOk (cleanup botW1 1).1 1 "12345").2.2 =
        BotOutcome.ignored := by
  refine ⟨by decide, by decide, by decide, by decide, by decide⟩

/-- C7 (amended): `cleanup(U)` removes U's entry and U's client reference,
but it performs no disconnect — its effect trace is empty, so the open
networkSession is leaked; a subsequent text event for U (such as a code
submission) finds no entry and is silently ignored, leaving the world
unchanged.  (The account-module code path, by contrast, answers a code
event with no entry with "Session expired"; see the no-entry theorem.) -/
theorem abandon_contract (w : BotWorld) (u : UserId) (benv : BotEnv)
    (t : String) :
    (cleanup w u).1.user_state u = none
    ∧ (cleanup w u).1.temp_clients u = none
    ∧ (cleanup w u).2 = []
    ∧ bot_text_handler benv (cleanup w u).1 u t =
        ((cleanup w u).1, [], BotOutcome.ignored) := by
  have hn : (cleanup w u).1.user_state u = none := by
    simp [cleanup, setBotEntry]
  refine ⟨hn, by simp [cleanup, setClient], rfl, ?_⟩
  unfold bot_text_handler
  simp only [hn]

/-- C8 counterexample: the only record written with a second-factor
secret is produced by the 2FA flow, which sets `created_by` (and no
`user_id`); reading it back through the implemented
`findByOwnerAndPhone` — bot.py's `find_one` on `user_id` and `phone` —
with the same owner 7 and phone "p" returns nothing, refuting the
round-trip. -/
theorem roundtrip_user_id_miss_cx :
    (verify_2fa_password envTfaFull w7 7 "sec").1.accounts =
      [tfaDoc d0 "s" "sec" 7 0]
    ∧ (tfaDoc d0 "s" "sec" 7 0).two_step_password = some "sec"
    ∧ (tfaDoc d0 "s" "sec" 7 0).has_2fa = some true
    ∧ (tfaDoc d0 "s" "sec" 7 0).phone = some "p"
    ∧ find_by_owner_and_phone
        (verify_2fa_password envTfaFull w7 7 "sec").1.accounts 7 "p" = none := by
  refine ⟨by decide, by decide, by decide, by decide, by decide⟩

/-- C8 (amended): a StoredCredential written by the 2FA flow with
hasSecondFactor true stores the supplied secret and phone, and reading it
back by matching the field the writer actually sets — `created_by` —
together with the phone returns that same secret and phone; the
implemented `findByOwnerAndPhone`, which matches `user_id`, cannot see
the new record at all (the lookup result is unchanged by the write),
because the 2FA writer leaves `user_id` unset. -/
theorem roundtrip_via_created_by (env2 : TfaEnv) (w : World) (u : UserId)
    (st : Attempt) (d : FlowData) (ss p : String)
    (hw : w.login_states u = some st) (hd : st.data = some d)
    (hc : env2.checkPassword = Except.ok ())
    (hss : env2.sessionString = some ss) (hne : ss ≠ "")
    (hi : env2.insertOk = true)
    (hfresh : ∀ doc ∈ w.accounts,
      ¬(doc.created_by = some u ∧ doc.phone = some d.phone)) :
    find_by_creator_and_phone (verify_2fa_password env2 w u p).1.accounts u
        d.phone = some (tfaDoc d ss p u env2.now)
    ∧ (tfaDoc d ss p u env2.now).two_step_password = some p
    ∧ (tfaDoc d ss p u env2.now).phone = some d.phone
    ∧ (tfaDoc d ss p u env2.now).has_2fa = some true
    ∧ (tfaDoc d ss p u env2.now).user_id = none
    ∧ find_by_owner_and_phone (verify_2fa_password env2 w u p).1.accounts u
        d.phone = find_by_owner_and_phone w.accounts u d.phone := by
  have hred : verify_2fa_password env2 w u p =
      ({ login_states := setEntry w.login_states u none,
         accounts := w.accounts ++ [tfaDoc d ss p u env2.now] },
       [Eff.insert (tfaDoc d ss p u env2.now), Eff.disconnect d.client], true,
       "Account added successfully") := by
    unfold verify_2fa_password
    simp only [hw, hd, hc, hss]
    rw [if_neg hne, hi]
    rfl
  have hacc : (verify_2fa_password env2 w u p).1.accounts =
      w.accounts ++ [tfaDoc d ss p u env2.now] := by
    rw [hred]
  refine ⟨?_, rfl, rfl, rfl, rfl, ?_⟩
  · unfold find_by_creator_and_phone
    rw [hacc, List.find?_append]
    have h1 : w.accounts.find? (fun doc =>
        decide (doc.created_by = some u) && decide (doc.phone = some d.phone))
        = none := by
      rw [List.find?_eq_none]
      intro x hx
      simp only [Bool.and_eq_true, decide_eq_true_eq, not_and]
      intro ha hb
      exact hfresh x hx ⟨ha, hb⟩
    rw [h1]
    simp [tfaDoc]
  · unfold find_by_owner_and_phone
    rw [hacc, List.find?_append]
    have h2 : List.find? (fun doc =>
        decide (doc.user_id = some u) && decide (doc.phone = some d.phone))
        [tfaDoc d ss p u env2.now] = none := by
      simp [tfaDoc]
    rw [h2]
    simp

theorem roundtrip_via_created_by_witness :
    find_by_creator_and_phone
        (verify_2fa_password envTfaFull w7 7 "sec").1.accounts 7 "p" =
      some (tfaDoc d0 "s" "sec" 7 0)
    ∧ (tfaDoc d0 "s" "sec" 7 0).two_step_password = some "sec"
    ∧ (tfaDoc d0 "s" "sec" 7 0).phone = some "p"
    ∧ (tfaDoc d0 "s" "sec" 7 0).has_2fa = some true
    ∧ (tfaDoc d0 "s" "sec" 7 0).user_id = none
    ∧ find_by_owner_and_phone
        (verify_2fa_password envTfaFull w7 7 "sec").1.accounts 7 "p" =
      find_by_owner_and_phone w7.accounts 7 "p" :=
  roundtrip_via_created_by envTfaFull w7 7 st0 d0 "s" "sec" (by decide) rfl rfl
    rfl (by decide) rfl (by simp [w7])
